import Mathlib

/-!
Verification of the xloockup phone-lookup tool (normalizer, response
extractor, lookup orchestrator, batch driver, and display banding),
shallowly embedded from the Python sources:

  * `utils.py`            — `validate_phone_number`, `display_result`
  * `truecaller_api.py`   — `TruecallerAPI.search_number`,
                            `TruecallerAPI._parse_response`,
                            `TruecallerAPI.bulk_search`
  * `xloockup.py`         — `XloockupEngine.validate_phone_number`,
                            `XloockupEngine.lookup_single_number`,
                            `XloockupEngine.bulk_lookup`,
                            `XloockupInterface.display_number_info`

Strings are handled at the `List Char` level with `String` wrappers.
Python's regex class `\d` is modelled as ASCII `Char.isDigit` (the inputs
of interest are ASCII).  JSON values are a shallow inductive; the partial
Python dict/list operations (`d[k]`, `l[0]`, `x.get`, `in`, iteration,
`.lower()`) are modelled as `Except`-valued functions whose error cases
mirror the exceptions CPython would raise, because `_parse_response`
converts any such exception into its catch-all error dictionary.
-/

/-! ### Normalizer from `utils.py` (`validate_phone_number`, lines 44-70) -/

/-- `re.sub(r'[^\d+]', '', str(number))`: keep ASCII digits and `+`. -/
def cleanChars (l : List Char) : List Char :=
  l.filter (fun c => c.isDigit || c == '+')

/-- The format-rewriting chain of `utils.validate_phone_number`
(lines 52-64): Bangladesh `01…`/`1…` rules, India `91…` rule, and the
fallback that prepends `+` when missing. -/
def rewriteNumber (c : List Char) : List Char :=
  if (['0', '1'].isPrefixOf c) ∧ c.length = 11 then
    ['+', '8', '8', '0'] ++ c.drop 1
  else if (['1'].isPrefixOf c) ∧ c.length = 10 then
    ['+', '8', '8', '0', '1'] ++ c
  else if (['9', '1'].isPrefixOf c) ∧ c.length = 12 then
    '+' :: c
  else if ¬ (['+'].isPrefixOf c) then
    '+' :: c
  else
    c

/-- `utils.validate_phone_number` on character lists: returns
`(False, error message)` or `(True, cleaned number)` exactly as the
Python function does.  Note the source checks only `len(cleaned) < 10`;
there is no maximum-length check in this revision. -/
def validateChars (l : List Char) : Bool × List Char :=
  if cleanChars l = [] then (false, "Empty phone number".data)
  else if (rewriteNumber (cleanChars l)).length < 10 then
    (false, "Phone number too short".data)
  else (true, rewriteNumber (cleanChars l))

/-- `utils.validate_phone_number` on strings. -/
def validate_phone_number (s : String) : Bool × String :=
  ((validateChars s.data).1, String.mk (validateChars s.data).2)

/-! ### Normalizer from `xloockup.py` (`XloockupEngine.validate_phone_number`,
lines 50-78).  The country hint is the configured
`default_country_code`; it is passed here as an explicit argument. -/

/-- The hard-coded table `{'BD': '880', 'US': '1', 'IN': '91', 'UK': '44'}`. -/
def engineCountryCode (cc : String) : Option (List Char) :=
  if cc = "BD" then some ['8', '8', '0']
  else if cc = "US" then some ['1']
  else if cc = "IN" then some ['9', '1']
  else if cc = "UK" then some ['4', '4']
  else none

/-- The trailing length checks of the engine normalizer
(`len < 10` → too short, `len > 15` → too long, else valid). -/
def engineFinalCheck (c : List Char) : Bool × List Char × String :=
  if c.length < 10 then (false, [], "Phone number too short")
  else if c.length > 15 then (false, [], "Phone number too long")
  else (true, c, "Valid phone number")

/-- `XloockupEngine.validate_phone_number` on character lists. -/
def engineValidateChars (l : List Char) (cc : String) : Bool × List Char × String :=
  if cleanChars l = [] then (false, [], "Phone number cannot be empty")
  else if ['+'].isPrefixOf (cleanChars l) then
    if (cleanChars l).length < 8 then
      (false, [], "Invalid international number format")
    else engineFinalCheck (cleanChars l)
  else
    match engineCountryCode cc with
    | some code => engineFinalCheck (code ++ cleanChars l)
    | none => engineFinalCheck (cleanChars l)

/-- `XloockupEngine.validate_phone_number` on strings; returns
`(is_valid, cleaned_number, message)`. -/
def engine_validate_phone_number (s : String) (cc : String) : Bool × String × String :=
  ((engineValidateChars s.data cc).1,
   String.mk (engineValidateChars s.data cc).2.1,
   (engineValidateChars s.data cc).2.2)

/-! ### Structural lemmas about the utils normalizer -/

lemma cleanChars_all (l : List Char) :
    ∀ a ∈ cleanChars l, (a.isDigit || a == '+') = true := by
  intro a ha
  exact (List.mem_filter.mp ha).2

lemma cleanChars_fixed (l : List Char)
    (h : ∀ a ∈ l, (a.isDigit || a == '+') = true) : cleanChars l = l :=
  List.filter_eq_self.mpr h

lemma rewriteNumber_all (c : List Char)
    (h : ∀ a ∈ c, (a.isDigit || a == '+') = true) :
    ∀ a ∈ rewriteNumber c, (a.isDigit || a == '+') = true := by
  intro a ha
  unfold rewriteNumber at ha
  split_ifs at ha
  all_goals
    first
    | exact h a ha
    | (rcases List.mem_append.mp ha with hm | hm
       · fin_cases hm <;> decide
       · first
         | exact h a (List.mem_of_mem_drop hm)
         | exact h a hm)
    | (rcases List.mem_cons.mp ha with hm | hm
       · subst hm; decide
       · exact h a hm)

lemma rewriteNumber_head (c : List Char) (hne : c ≠ []) :
    ∃ t, rewriteNumber c = '+' :: t := by
  unfold rewriteNumber
  split_ifs with h1 h2 h3 h4
  all_goals
    first
    | exact ⟨_, rfl⟩
    | (have hp : List.isPrefixOf ['+'] c = true := h4
       cases c with
       | nil => exact absurd rfl hne
       | cons a t =>
         have hb : ('+' == a && List.isPrefixOf [] t) = true := hp
         have ha : '+' = a := eq_of_beq ((Bool.and_eq_true _ _).mp hb).1
         exact ⟨t, by rw [← ha]⟩)

lemma rewriteNumber_plusHead (t : List Char) :
    rewriteNumber ('+' :: t) = '+' :: t := by
  unfold rewriteNumber
  have e1 : List.isPrefixOf ['0', '1'] ('+' :: t) = false := by
    rw [List.isPrefixOf_cons₂]
    simp [show ('0' == '+') = false from by decide]
  have e2 : List.isPrefixOf ['1'] ('+' :: t) = false := by
    rw [List.isPrefixOf_cons₂]
    simp [show ('1' == '+') = false from by decide]
  have e3 : List.isPrefixOf ['9', '1'] ('+' :: t) = false := by
    rw [List.isPrefixOf_cons₂]
    simp [show ('9' == '+') = false from by decide]
  have e4 : List.isPrefixOf ['+'] ('+' :: t) = true := by
    rw [List.isPrefixOf_cons₂]
    simp [List.isPrefixOf]
  rw [if_neg (by simp [e1]), if_neg (by simp [e2]), if_neg (by simp [e3]),
      if_neg (by simp [e4])]

/-- Shape of every successful output of the utils normalizer: at least 10
characters, a leading `+`, and only digit-or-`+` characters. -/
lemma validateChars_success (l c : List Char)
    (h : validateChars l = (true, c)) :
    10 ≤ c.length ∧ (∃ t, c = '+' :: t) ∧
      ∀ a ∈ c, (a.isDigit || a == '+') = true := by
  unfold validateChars at h
  split_ifs at h with h1 h2
  · simp at h
  · simp at h
  · have hc : rewriteNumber (cleanChars l) = c := by
      have := congrArg Prod.snd h
      simpa using this
    refine ⟨?_, ?_, ?_⟩
    · rw [← hc]; omega
    · rw [← hc]; exact rewriteNumber_head _ h1
    · rw [← hc]; exact rewriteNumber_all _ (cleanChars_all l)

/-- Normalizing an already-successful output again changes nothing:
its cleaned form is itself, it starts with `+`, so every rewrite rule is
skipped and the length check still passes. -/
lemma validateChars_idem (l c : List Char)
    (h : validateChars l = (true, c)) : validateChars c = (true, c) := by
  obtain ⟨hlen, ⟨t, rfl⟩, hall⟩ := validateChars_success l c h
  have hfix : cleanChars ('+' :: t) = '+' :: t := cleanChars_fixed _ hall
  unfold validateChars
  rw [hfix, rewriteNumber_plusHead]
  rw [if_neg (List.cons_ne_nil _ _), if_neg (by omega)]

/-! ### Claim theorems C1 and C2 (normalizer) -/

/-- C1 counterexample: the engine normalizer
`XloockupEngine.validate_phone_number` is not idempotent.  With country
hint `BD` it accepts `"1712345678"` and returns `"8801713456789"`-style
output without a leading `+`; normalizing that output again prepends the
country code a second time and fails the 15-character maximum, so
`normalize(normalize(x, c), c) = normalize(x, c)` is false. -/
theorem c1_counterexample :
    engine_validate_phone_number "1712345678" "BD" =
      (true, "8801712345678", "Valid phone number") ∧
    (engine_validate_phone_number "8801712345678" "BD").1 = false ∧
    (engine_validate_phone_number "8801712345678" "BD").2.2 =
      "Phone number too long" := by
  refine ⟨by decide, by decide, by decide⟩

/-- C1 (amended): the normalizer the orchestrator `TruecallerAPI`
actually imports — `validate_phone_number` from `utils.py` — is
idempotent: whenever it succeeds on `x` with output `y`, running it on
`y` succeeds and returns `y` unchanged.  (The engine-revision normalizer
in `xloockup.py` satisfies this only for inputs already carrying `+`.) -/
theorem c1_utils_normalize_idempotent (x y : String)
    (h : validate_phone_number x = (true, y)) :
    validate_phone_number y = (true, y) := by
  obtain ⟨ly⟩ := y
  unfold validate_phone_number at h ⊢
  have h1 : (validateChars x.data).1 = true := congrArg Prod.fst h
  have h2 : (validateChars x.data).2 = ly := by
    have hs := congrArg Prod.snd h
    exact congrArg String.data hs
  have hx : validateChars x.data = (true, ly) := by
    rw [← h1, ← h2]
  have hi := validateChars_idem x.data ly hx
  rw [show (String.mk ly).data = ly from rfl, hi]

/-- C1 witness: `"01712345678"` normalizes to `"+8801712345678"` and the
idempotence theorem applies to it. -/
theorem c1_witness :
    validate_phone_number "+8801712345678" = (true, "+8801712345678") :=
  c1_utils_normalize_idempotent "01712345678" "+8801712345678" (by decide)

/-- C2 counterexample: `utils.validate_phone_number` has no maximum
length check.  The 20-digit input is accepted and the returned candidate
has 21 characters, where the claim demands rejection of anything longer
than 15 with an `InvalidInput` error. -/
theorem c2_counterexample :
    validate_phone_number "12345678901234567890" =
      (true, "+12345678901234567890") ∧
    15 < ("+12345678901234567890" : String).length := by
  refine ⟨by decide, by decide⟩

/-- C2 (amended): every successful output of `utils.validate_phone_number`
starts with `+`, contains only ASCII digits or `+` signs, and is at least
10 characters long; a candidate shorter than 10 characters is rejected
with the "Phone number too short" error.  There is no upper length bound,
and interior `+` characters from the input are preserved. -/
theorem c2_normalized_shape :
    (∀ x y : String, validate_phone_number x = (true, y) →
       10 ≤ y.length ∧ y.data.head? = some '+' ∧
       ∀ c ∈ y.data, (c.isDigit || c == '+') = true) ∧
    (∀ x : String, cleanChars x.data ≠ [] →
       (rewriteNumber (cleanChars x.data)).length < 10 →
       validate_phone_number x = (false, "Phone number too short")) := by
  constructor
  · intro x y h
    obtain ⟨ly⟩ := y
    unfold validate_phone_number at h
    have h1 : (validateChars x.data).1 = true := congrArg Prod.fst h
    have h2 : (validateChars x.data).2 = ly := by
      have hs := congrArg Prod.snd h
      exact congrArg String.data hs
    have hx : validateChars x.data = (true, ly) := by
      rw [← h1, ← h2]
    obtain ⟨hlen, ⟨t, ht⟩, hall⟩ := validateChars_success x.data ly hx
    refine ⟨hlen, ?_, hall⟩
    rw [show (String.mk ly).data = ly from rfl, ht]
    rfl
  · intro x h1 h2
    unfold validate_phone_number validateChars
    rw [if_neg h1, if_pos h2]

/-- C2 witness: the shape theorem applied to `"01712345678"` and the
rejection branch applied to the too-short input `"12"`. -/
theorem c2_witness :
    (10 ≤ ("+8801712345678" : String).length ∧
       ("+8801712345678" : String).data.head? = some '+' ∧
       ∀ c ∈ ("+8801712345678" : String).data,
         (c.isDigit || c == '+') = true) ∧
    validate_phone_number "12" = (false, "Phone number too short") :=
  ⟨c2_normalized_shape.1 "01712345678" "+8801712345678" (by decide),
   c2_normalized_shape.2 "12" (by decide) (by decide)⟩

/-! ### JSON model and Python primitive operations

`TruecallerAPI._parse_response` walks a decoded JSON value with the
dynamic operations `in`, `d[k]`, `l[0]`, `x.get(k, default)`, iteration
and `.lower()`.  Each is modelled as a total Lean function returning
`Except PyErr _`, where the error constructor names the exception CPython
raises; the enclosing `try/except` of `_parse_response` maps any raised
exception to the `"Failed to parse API response"` error dictionary. -/

inductive JSON where
  | null : JSON
  | bool (b : Bool) : JSON
  | num (n : Int) : JSON
  | str (s : String) : JSON
  | arr (elems : List JSON) : JSON
  | obj (fields : List (String × JSON)) : JSON

inductive PyErr where
  | keyError : PyErr
  | typeError : PyErr
  | attributeError : PyErr
  | indexError : PyErr
deriving DecidableEq

/-- Python truthiness of a JSON value (`bool(x)` is `False` exactly for
`None`, `False`, `0`, `""`, `[]`, `{}`). -/
def pyFalsy : JSON → Bool
  | .null => true
  | .bool b => !b
  | .num n => n == 0
  | .str s => s.data.isEmpty
  | .arr l => l.isEmpty
  | .obj l => l.isEmpty

/-- `needle in hay` on strings: substring containment, at the character
level (`'' in s` is always true). -/
def containsSub (needle : List Char) : List Char → Bool
  | [] => needle.isEmpty
  | c :: t => needle.isPrefixOf (c :: t) || containsSub needle t

/-- `k in j` for a string key `k`: key membership for dicts, substring
test for strings, element equality for lists, `TypeError` otherwise. -/
def pyContains (j : JSON) (k : String) : Except PyErr Bool :=
  match j with
  | .obj fields => .ok (List.lookup k fields).isSome
  | .str s => .ok (containsSub k.data s.data)
  | .arr l => .ok (l.any (fun e => match e with | .str s => s == k | _ => false))
  | _ => .error .typeError

/-- `j[k]` for a string key: dict lookup (`KeyError` when absent),
`TypeError` for every other shape. -/
def pyGetItemStr (j : JSON) (k : String) : Except PyErr JSON :=
  match j with
  | .obj fields =>
    match List.lookup k fields with
    | some v => .ok v
    | none => .error .keyError
  | _ => .error .typeError

/-- `j[0]`: head of a list (`IndexError` when empty), first character of
a string, `KeyError` for dicts (their keys are strings, never `0`),
`TypeError` otherwise. -/
def pyIndex0 (j : JSON) : Except PyErr JSON :=
  match j with
  | .arr [] => .error .indexError
  | .arr (x :: _) => .ok x
  | .str s =>
    match s.data with
    | [] => .error .indexError
    | c :: _ => .ok (.str (String.mk [c]))
  | .obj _ => .error .keyError
  | _ => .error .typeError

/-- `j.get(k, default)`: only dicts have `.get`; anything else raises
`AttributeError`. -/
def pyGet (j : JSON) (k : String) (default : JSON) : Except PyErr JSON :=
  match j with
  | .obj fields => .ok ((List.lookup k fields).getD default)
  | _ => .error .attributeError

/-- Iteration `for x in j`: list elements, string characters, dict keys;
`TypeError` otherwise. -/
def pyIter (j : JSON) : Except PyErr (List JSON) :=
  match j with
  | .arr l => .ok l
  | .str s => .ok (s.data.map (fun c => .str (String.mk [c])))
  | .obj fields => .ok (fields.map (fun kv => .str kv.1))
  | _ => .error .typeError

/-- `j.lower()`: only strings have `.lower`. -/
def pyStrLower (j : JSON) : Except PyErr String :=
  match j with
  | .str s => .ok s.toLower
  | _ => .error .attributeError

/-! ### The flat result record built by `_parse_response` -/

/-- The result dictionary of `TruecallerAPI._parse_response`.  The four
`Option` field groups model keys that are only inserted when the
corresponding branch runs; `score`/`spam_score`/`spam_type`/
`search_source`/`active` are written unconditionally by the time the
record is returned, so they are plain values. -/
structure Record where
  searched_number : String
  timestamp : String
  name : Option JSON
  phone : Option JSON
  carrier : Option JSON
  numtype : Option JSON
  address : Option JSON
  country : Option JSON
  full_address : Option JSON
  email : Option JSON
  score : JSON
  spam_score : JSON
  spam_type : JSON
  search_source : JSON
  active : JSON

/-- The dictionary `{"searched_number": …, "timestamp": …}` created at
lines 111-114 of `truecaller_api.py`, before any candidate field is
extracted. -/
def initRecord (n now : String) : Record :=
  { searched_number := n, timestamp := now,
    name := none, phone := none, carrier := none, numtype := none,
    address := none, country := none, full_address := none, email := none,
    score := .num 0, spam_score := .num 0, spam_type := .str "Not Spam",
    search_source := .str "Truecaller", active := .bool true }

/-- `any(key in result for key in ['name', 'carrier', 'address', 'email'])`
from line 156: key presence, not truthiness. -/
def informative (r : Record) : Bool :=
  r.name.isSome || r.carrier.isSome || r.address.isSome || r.email.isSome

/-- A single-lookup outcome: an error dictionary `{"error": msg}` or the
flat result record. -/
inductive POutcome where
  | err (msg : String) : POutcome
  | record (r : Record) : POutcome

/-! ### `_parse_response` steps (lines 104-163 of `truecaller_api.py`) -/

/-- Lines 119-121: `if 'name' in item and item['name']:` then copy it. -/
def stepName (item : JSON) (r : Record) : Except PyErr Record :=
  match pyContains item "name" with
  | .error e => .error e
  | .ok false => .ok r
  | .ok true =>
    match pyGetItemStr item "name" with
    | .error e => .error e
    | .ok v => if pyFalsy v then .ok r else .ok { r with name := some v }

/-- Lines 123-128: first entry of a truthy `phones` list supplies
`phone`, `carrier` (default `"Unknown Carrier"`) and `type`. -/
def stepPhones (item : JSON) (r : Record) : Except PyErr Record :=
  match pyContains item "phones" with
  | .error e => .error e
  | .ok false => .ok r
  | .ok true =>
    match pyGetItemStr item "phones" with
    | .error e => .error e
    | .ok pv =>
      if pyFalsy pv then .ok r
      else
        match pyIndex0 pv with
        | .error e => .error e
        | .ok p0 =>
          match pyGet p0 "e164Format" (.str "") with
          | .error e => .error e
          | .ok ph =>
            match pyGet p0 "carrier" (.str "Unknown Carrier") with
            | .error e => .error e
            | .ok ca =>
              match pyGet p0 "type" (.str "Unknown Type") with
              | .error e => .error e
              | .ok ty =>
                .ok { r with phone := some ph, carrier := some ca,
                             numtype := some ty }

/-- Lines 130-136: first entry of a truthy `addresses` list supplies
`address` (the city), `country`, and optionally `full_address`. -/
def stepAddresses (item : JSON) (r : Record) : Except PyErr Record :=
  match pyContains item "addresses" with
  | .error e => .error e
  | .ok false => .ok r
  | .ok true =>
    match pyGetItemStr item "addresses" with
    | .error e => .error e
    | .ok av =>
      if pyFalsy av then .ok r
      else
        match pyIndex0 av with
        | .error e => .error e
        | .ok a0 =>
          match pyGet a0 "city" (.str "") with
          | .error e => .error e
          | .ok city =>
            match pyGet a0 "countryCode" (.str "") with
            | .error e => .error e
            | .ok ctry =>
              match pyContains a0 "address" with
              | .error e => .error e
              | .ok hasAddr =>
                if hasAddr then
                  match pyGet a0 "address" (.str "") with
                  | .error e => .error e
                  | .ok fa =>
                    .ok { r with address := some city, country := some ctry,
                                 full_address := some fa }
                else .ok { r with address := some city, country := some ctry }

/-- Lines 140-144: scan `internetAddresses` for the first entry whose
lowered `id` contains `"email"` or `"@"`, store its raw `id`, `break`. -/
def findEmail : List JSON → Except PyErr (Option JSON)
  | [] => .ok none
  | a :: rest =>
    match pyGet a "id" (.str "") with
    | .error e => .error e
    | .ok idj =>
      match pyStrLower idj with
      | .error e => .error e
      | .ok low =>
        if containsSub "email".data low.data || containsSub "@".data low.data then
          match pyGet a "id" (.str "") with
          | .error e => .error e
          | .ok v => .ok (some v)
        else findEmail rest

/-- Lines 138-144: the `internetAddresses` guard around `findEmail`. -/
def stepInternet (item : JSON) (r : Record) : Except PyErr Record :=
  match pyContains item "internetAddresses" with
  | .error e => .error e
  | .ok false => .ok r
  | .ok true =>
    match pyGetItemStr item "internetAddresses" with
    | .error e => .error e
    | .ok iv =>
      if pyFalsy iv then .ok r
      else
        match pyIter iv with
        | .error e => .error e
        | .ok l =>
          match findEmail l with
          | .error e => .error e
          | .ok (some v) => .ok { r with email := some v }
          | .ok none => .ok r

/-- Lines 146-153: `score`, `spamScore`, `spamType`, `source`, `active`
via `item.get` with the source's defaults. -/
def stepScores (item : JSON) (r : Record) : Except PyErr Record :=
  match pyGet item "score" (.num 0) with
  | .error e => .error e
  | .ok sc =>
    match pyGet item "spamScore" (.num 0) with
    | .error e => .error e
    | .ok ss =>
      match pyGet item "spamType" (.str "Not Spam") with
      | .error e => .error e
      | .ok st =>
        match pyGet item "source" (.str "Truecaller") with
        | .error e => .error e
        | .ok so =>
          match pyGet item "active" (.bool true) with
          | .error e => .error e
          | .ok ac =>
            .ok { r with score := sc, spam_score := ss, spam_type := st,
                         search_source := so, active := ac }

/-- Field extraction from the first candidate (lines 111-153). -/
def buildRecord (item : JSON) (n now : String) : Except PyErr Record :=
  match stepName item (initRecord n now) with
  | .error e => .error e
  | .ok r1 =>
    match stepPhones item r1 with
    | .error e => .error e
    | .ok r2 =>
      match stepAddresses item r2 with
      | .error e => .error e
      | .ok r3 =>
        match stepInternet item r3 with
        | .error e => .error e
        | .ok r4 => stepScores item r4

/-- Lines 105-117: empty-response and missing-`data` guards and the
`data['data'][0]` candidate selection.  `Sum.inl msg` is an early error
dictionary, `Sum.inr item` the first candidate. -/
def getCandidate (data : JSON) : Except PyErr (Sum String JSON) :=
  if pyFalsy data then .ok (.inl "Empty response from API")
  else
    match pyContains data "data" with
    | .error e => .error e
    | .ok hasData =>
      if !hasData then .ok (.inl "No data available for this number")
      else
        match pyGetItemStr data "data" with
        | .error e => .error e
        | .ok dv =>
          if pyFalsy dv then .ok (.inl "No data available for this number")
          else
            match pyIndex0 dv with
            | .error e => .error e
            | .ok item => .ok (.inr item)

/-- The body of the `try` block of `_parse_response`: candidate
selection, field extraction, and the informativeness check of
lines 155-158. -/
def parseCore (data : JSON) (n now : String) : Except PyErr POutcome :=
  match getCandidate data with
  | .error e => .error e
  | .ok (.inl msg) => .ok (.err msg)
  | .ok (.inr item) =>
    match buildRecord item n now with
    | .error e => .error e
    | .ok r =>
      if informative r then .ok (.record r)
      else .ok (.err "No identifiable information found")

/-- `TruecallerAPI._parse_response`: the surrounding `try/except` turns
any raised exception into the catch-all error dictionary. -/
def parse_response (data : JSON) (n now : String) : POutcome :=
  match parseCore data n now with
  | .ok o => o
  | .error _ => .err "Failed to parse API response"

/-! ### Lemmas about the extraction steps -/

lemma stepName_carrier (item : JSON) (r r' : Record)
    (h : stepName item r = .ok r') : r'.carrier = r.carrier := by
  unfold stepName at h
  repeat' split at h
  all_goals first
    | (exact Except.noConfusion h)
    | (injection h with h2; subst h2; rfl)

lemma stepAddresses_carrier (item : JSON) (r r' : Record)
    (h : stepAddresses item r = .ok r') : r'.carrier = r.carrier := by
  unfold stepAddresses at h
  repeat' split at h
  all_goals first
    | (exact Except.noConfusion h)
    | (injection h with h2; subst h2; rfl)

lemma stepInternet_carrier (item : JSON) (r r' : Record)
    (h : stepInternet item r = .ok r') : r'.carrier = r.carrier := by
  unfold stepInternet at h
  repeat' split at h
  all_goals first
    | (exact Except.noConfusion h)
    | (injection h with h2; subst h2; rfl)

lemma stepScores_carrier (item : JSON) (r r' : Record)
    (h : stepScores item r = .ok r') : r'.carrier = r.carrier := by
  unfold stepScores at h
  repeat' split at h
  all_goals first
    | (exact Except.noConfusion h)
    | (injection h with h2; subst h2; rfl)

/-- When the candidate is a dict whose `phones` key holds a non-empty
list, a successful `stepPhones` always populates `carrier` (defaulting to
`"Unknown Carrier"`). -/
lemma stepPhones_sets_carrier (fields : List (String × JSON)) (p : JSON)
    (ps : List JSON) (r r' : Record)
    (hp : List.lookup "phones" fields = some (.arr (p :: ps)))
    (h : stepPhones (.obj fields) r = .ok r') : r'.carrier.isSome = true := by
  unfold stepPhones at h
  simp only [pyContains, pyGetItemStr, pyIndex0, pyFalsy, hp,
    Option.isSome_some, List.isEmpty_cons] at h
  repeat' split at h
  all_goals first
    | (exact Except.noConfusion h)
    | (exact absurd (show false = true by assumption) (by decide))
    | (injection h with h2; subst h2; rfl)

/-- Chained form: under the same `phones` precondition, any successfully
built record has `carrier` populated. -/
lemma buildRecord_carrier (fields : List (String × JSON)) (p : JSON)
    (ps : List JSON) (n now : String) (r : Record)
    (hp : List.lookup "phones" fields = some (.arr (p :: ps)))
    (h : buildRecord (.obj fields) n now = .ok r) : r.carrier.isSome = true := by
  unfold buildRecord at h
  split at h
  · exact Except.noConfusion h
  rename_i r1 h1
  split at h
  · exact Except.noConfusion h
  rename_i r2 h2
  split at h
  · exact Except.noConfusion h
  rename_i r3 h3
  split at h
  · exact Except.noConfusion h
  rename_i r4 h4
  have hc2 : r2.carrier.isSome = true :=
    stepPhones_sets_carrier fields p ps r1 r2 hp h2
  have e5 := stepScores_carrier (.obj fields) r4 r h
  have e4 := stepInternet_carrier (.obj fields) r3 r4 h4
  have e3 := stepAddresses_carrier (.obj fields) r2 r3 h3
  rw [e5, e4, e3]
  exact hc2

/-- Evaluation of `parse_response` from a successful `try` body. -/
lemma parse_response_core_ok (data : JSON) (n now : String) (o : POutcome)
    (h : parseCore data n now = .ok o) : parse_response data n now = o := by
  unfold parse_response
  rw [h]

/-- Evaluation of `parse_response` from a raised exception. -/
lemma parse_response_core_error (data : JSON) (n now : String) (e : PyErr)
    (h : parseCore data n now = .error e) :
    parse_response data n now = .err "Failed to parse API response" := by
  unfold parse_response
  rw [h]

/-- Evaluation of `parseCore` once the first candidate is known. -/
lemma parseCore_inr (data : JSON) (n now : String) (item : JSON)
    (hc : getCandidate data = .ok (.inr item)) :
    parseCore data n now =
      (match buildRecord item n now with
       | .error e => .error e
       | .ok r =>
         if informative r then .ok (.record r)
         else .ok (.err "No identifiable information found")) := by
  unfold parseCore
  rw [hc]

/-! ### Claim theorems C3, C5, C6, C10 (response extractor) -/

/-- C3: the informativeness invariant of `_parse_response`.  A returned
record always has at least one of `name`/`carrier`/`address`/`email`
present, and when a candidate was obtained but extraction populated none
of those four keys, the result is exactly the
`"No identifiable information found"` error dictionary. -/
theorem c3_informativeness_invariant :
    (∀ (data : JSON) (n now : String) (r : Record),
       parse_response data n now = .record r → informative r = true) ∧
    (∀ (data : JSON) (n now : String) (item : JSON) (r : Record),
       getCandidate data = .ok (.inr item) →
       buildRecord item n now = .ok r →
       informative r = false →
       parse_response data n now = .err "No identifiable information found") := by
  constructor
  · intro data n now r h
    cases hg : getCandidate data with
    | error e =>
      have h2 : parseCore data n now = .error e := by unfold parseCore; rw [hg]
      rw [parse_response_core_error data n now e h2] at h
      exact POutcome.noConfusion h
    | ok s =>
      cases s with
      | inl msg =>
        have h2 : parseCore data n now = .ok (.err msg) := by
          unfold parseCore; rw [hg]
        rw [parse_response_core_ok data n now _ h2] at h
        exact POutcome.noConfusion h
      | inr item =>
        have hpc := parseCore_inr data n now item hg
        cases hb : buildRecord item n now with
        | error e =>
          rw [hb] at hpc
          have h2 : parseCore data n now = .error e := hpc
          rw [parse_response_core_error data n now e h2] at h
          exact POutcome.noConfusion h
        | ok r0 =>
          rw [hb] at hpc
          by_cases hi : informative r0 = true
          · have h2 : parseCore data n now = .ok (.record r0) := by
              rw [hpc]; exact if_pos hi
            rw [parse_response_core_ok data n now _ h2] at h
            injection h with h3
            rw [← h3]
            exact hi
          · have h2 : parseCore data n now =
                .ok (.err "No identifiable information found") := by
              rw [hpc]; exact if_neg hi
            rw [parse_response_core_ok data n now _ h2] at h
            exact POutcome.noConfusion h
  · intro data n now item r hg hb hi
    have hpc := parseCore_inr data n now item hg
    rw [hb] at hpc
    have h2 : parseCore data n now =
        .ok (.err "No identifiable information found") := by
      rw [hpc]; exact if_neg (by simp [hi])
    exact parse_response_core_ok data n now _ h2

/-- C3 witness: the spec's own examples.  A response whose candidate
carries a `name` yields a record satisfying the invariant, and the
candidate `{"score": 10}` with no identifiable field yields the
no-identifiable-information error. -/
theorem c3_witness :
    informative
      { searched_number := "+15551234567", timestamp := "ts",
        name := some (JSON.str "Alice"), phone := none, carrier := none,
        numtype := none, address := none, country := none,
        full_address := none, email := none, score := JSON.num 0,
        spam_score := JSON.num 0, spam_type := JSON.str "Not Spam",
        search_source := JSON.str "Truecaller",
        active := JSON.bool true } = true ∧
    parse_response (JSON.obj [("data", JSON.arr [JSON.obj [("score", JSON.num 10)]])])
      "+15551234567" "ts" = .err "No identifiable information found" :=
  ⟨c3_informativeness_invariant.1
     (JSON.obj [("data", JSON.arr [JSON.obj [("name", JSON.str "Alice")]])])
     "+15551234567" "ts" _ rfl,
   c3_informativeness_invariant.2
     (JSON.obj [("data", JSON.arr [JSON.obj [("score", JSON.num 10)]])])
     "+15551234567" "ts" (JSON.obj [("score", JSON.num 10)])
     { searched_number := "+15551234567", timestamp := "ts",
       name := none, phone := none, carrier := none, numtype := none,
       address := none, country := none, full_address := none,
       email := none, score := JSON.num 10, spam_score := JSON.num 0,
       spam_type := JSON.str "Not Spam",
       search_source := JSON.str "Truecaller", active := JSON.bool true }
     rfl rfl rfl⟩

/-- C5 counterexample: `extract(None, n)` does not return `NoData`.
`None` is falsy, so it takes the same `if not data:` branch as `{}` and
yields the `"Empty response from API"` dictionary. -/
theorem c5_counterexample :
    parse_response JSON.null "+919876543210" "ts" =
      .err "Empty response from API" ∧
    POutcome.err "Empty response from API" ≠
      POutcome.err "No data available for this number" := by
  refine ⟨rfl, ?_⟩
  intro h
  injection h with hm
  exact absurd hm (by decide)

/-- C5 (amended): both the empty dict `{}` and `None` are falsy, so
`extract({}, n)` and `extract(None, n)` each return the
`"Empty response from API"` (EmptyResponse) dictionary; the NoData
dictionary is produced only for a truthy response without a truthy
`data` key. -/
theorem c5_falsy_response_empty (n now : String) :
    parse_response JSON.null n now = .err "Empty response from API" ∧
    parse_response (JSON.obj []) n now = .err "Empty response from API" :=
  ⟨rfl, rfl⟩

/-- C6 counterexample: a top-level `data` holding a single object is NOT
used as the candidate.  `data['data'][0]` raises `KeyError` on a dict,
so extraction returns the catch-all parse-failure error dictionary
instead of proceeding on the object. -/
theorem c6_counterexample :
    parse_response (JSON.obj [("data", JSON.obj [("name", JSON.str "Alice")])])
      "+15551234567" "ts" = .err "Failed to parse API response" := rfl

/-- C6 (amended): for every non-empty object under the `data` key, the
indexing `data['data'][0]` raises `KeyError` and `_parse_response`
returns the `"Failed to parse API response"` dictionary; only an
array-shaped `data` is tolerated. -/
theorem c6_object_data_parse_failure (kvs : List (String × JSON))
    (n now : String) (h : kvs ≠ []) :
    parse_response (JSON.obj [("data", JSON.obj kvs)]) n now =
      .err "Failed to parse API response" := by
  cases kvs with
  | nil => exact absurd rfl h
  | cons a t => rfl

/-- C6 witness: the amended theorem applied to a concrete single-object
`data` payload. -/
theorem c6_witness :
    parse_response (JSON.obj [("data", JSON.obj [("name", JSON.str "Bob")])])
      "+14155550123" "ts" = .err "Failed to parse API response" :=
  c6_object_data_parse_failure [("name", JSON.str "Bob")] "+14155550123" "ts"
    (List.cons_ne_nil _ _)

/-- C10: if the first candidate is a dict whose `phones` key holds a
non-empty list, extraction can never return the
no-identifiable-information error: either some later dynamic operation
raises (giving the parse-failure dictionary) or the record is built with
`carrier` populated — the `"Unknown Carrier"` default makes the
uninformative branch unreachable. -/
theorem c10_phones_implies_identifiable (data : JSON) (n now : String)
    (fields : List (String × JSON)) (p : JSON) (ps : List JSON)
    (hc : getCandidate data = .ok (.inr (.obj fields)))
    (hp : List.lookup "phones" fields = some (.arr (p :: ps))) :
    parse_response data n now ≠ .err "No identifiable information found" := by
  have hpc := parseCore_inr data n now _ hc
  cases hb : buildRecord (.obj fields) n now with
  | error e =>
    rw [hb] at hpc
    have h2 : parseCore data n now = .error e := hpc
    rw [parse_response_core_error data n now e h2]
    intro h
    injection h with hm
    exact absurd hm (by decide)
  | ok r =>
    have hcar := buildRecord_carrier fields p ps n now r hp hb
    have hi : informative r = true := by
      unfold informative
      rw [hcar]
      simp
    rw [hb] at hpc
    have h2 : parseCore data n now = .ok (.record r) := by
      rw [hpc]; exact if_pos hi
    rw [parse_response_core_ok data n now _ h2]
    intro h
    exact POutcome.noConfusion h

/-- C10 witness: a candidate whose only content is `phones: [{}]` —
no name, no address, no email, and no carrier field in the phone entry —
still avoids the no-identifiable-information error. -/
theorem c10_witness :
    parse_response
      (JSON.obj [("data", JSON.arr [JSON.obj [("phones", JSON.arr [JSON.obj []])]])])
      "+15557654321" "ts" ≠ .err "No identifiable information found" :=
  c10_phones_implies_identifiable _ "+15557654321" "ts"
    [("phones", JSON.arr [JSON.obj []])] (JSON.obj []) [] rfl rfl

/-! ### Orchestrator: `TruecallerAPI.search_number` (lines 17-100)

The network is modelled by `attempts`: one entry per endpoint in the
fixed three-element endpoint list, `none` when `session.post` raises
(timeout / connection error, swallowed by the per-endpoint bare
`except: continue`) and `some` the returned response.  The loop keeps the
last response obtained and breaks at the first status-200 response.

A crucial library semantic is modelled in `responseTruthy`:
`requests.Response.__bool__` returns `self.ok`, which is `False` exactly
when `raise_for_status` would raise, i.e. for `400 <= status < 600`.
Hence the guard `if not response:` at line 72 is taken not only when
every endpoint raised, but also whenever the final response has a 4xx or
5xx status — making the dedicated 404/429/other branches below it dead
code for those statuses. -/

structure HttpResponse where
  status : Nat
  body : JSON

/-- The value of the `response` variable after the endpoint loop:
the first status-200 response, else the last response obtained, else
`None` when every attempt raised. -/
def lastResponse : Option HttpResponse → List (Option HttpResponse) → Option HttpResponse
  | acc, [] => acc
  | acc, none :: rest => lastResponse acc rest
  | _, some r :: rest =>
    if r.status = 200 then some r else lastResponse (some r) rest

/-- `bool(response)` for a non-`None` `requests.Response`:
`response.ok`, i.e. `not (400 <= status_code < 600)`. -/
def responseTruthy (r : HttpResponse) : Bool :=
  !(decide (400 ≤ r.status) && decide (r.status < 600))

/-- Lines 27-31: the Bangladesh zero-stripping fix applied to the
already-validated number when the country code is `"BD"`. -/
def bdFixChars (cc : String) (c : List Char) : List Char :=
  if cc = "BD" ∧ ['+', '0'].isPrefixOf c then ['+', '8', '8'] ++ c.drop 2
  else if cc = "BD" ∧ ['0'].isPrefixOf c then ['+', '8', '8'] ++ c.drop 1
  else c

/-- The status dispatch of lines 72-90, applied once the loop is over. -/
def searchDispatch (cleaned : String) (final : Option HttpResponse)
    (now : String) : POutcome :=
  match final with
  | none => .err "All API endpoints failed"
  | some resp =>
    if responseTruthy resp then
      if resp.status = 200 then parse_response resp.body cleaned now
      else if resp.status = 404 then
        .err "Number not found in Truecaller database"
      else if resp.status = 429 then .err "Rate limited - try again later"
      else .err ("API returned status " ++ toString resp.status)
    else .err "All API endpoints failed"

/-- `TruecallerAPI.search_number`.  Returns `none` — Python `None` —
when validation fails (line 25); otherwise the error dictionary or
parsed record. -/
def search_number (raw cc : String) (attempts : List (Option HttpResponse))
    (now : String) : Option POutcome :=
  match validateChars raw.data with
  | (false, _) => none
  | (true, cleaned0) =>
    some (searchDispatch (String.mk (bdFixChars cc cleaned0))
      (lastResponse none attempts) now)

/-! ### Claim theorems C4 and C7 (orchestrator) -/

/-- C4 (code bug): when the final response carries a non-2xx status of
404, 429 or 500, `search_number` returns the
`"All API endpoints failed"` dictionary — the transport-exhaustion
outcome — instead of the dedicated not-found / rate-limited / upstream
error dictionaries, because `if not response:` is true for any
`requests.Response` with a 4xx/5xx status.  The specific branches at
lines 82-90 are unreachable for those statuses. -/
theorem c4_status_mapping_bug :
    search_number "+12345678901" "IN" [some ⟨404, JSON.null⟩] "ts" =
      some (.err "All API endpoints failed") ∧
    search_number "+12345678901" "IN" [some ⟨404, JSON.null⟩] "ts" ≠
      some (.err "Number not found in Truecaller database") ∧
    search_number "+12345678901" "IN" [some ⟨429, JSON.null⟩] "ts" =
      some (.err "All API endpoints failed") ∧
    search_number "+12345678901" "IN" [some ⟨500, JSON.null⟩] "ts" =
      some (.err "All API endpoints failed") ∧
    search_number "+12345678901" "IN" [none, none, none] "ts" =
      some (.err "All API endpoints failed") := by
  refine ⟨rfl, ?_, rfl, rfl, rfl⟩
  intro h
  injection h with h1
  injection h1 with h2
  exact absurd h2 (by decide)

/-- C7 counterexample: on the empty input, normalization fails with the
`"Empty phone number"` message, yet `search_number` returns Python
`None` — a bare absence-of-result — rather than a typed error outcome
carrying that message. -/
theorem c7_counterexample :
    search_number "" "IN" [] "ts" = none ∧
    validate_phone_number "" = (false, "Empty phone number") := by
  refine ⟨rfl, by decide⟩

/-- C7 (amended): whenever normalization fails, `TruecallerAPI.search_number`
prints the message and returns `None`; the normalizer's error outcome is
not propagated to the caller.  (The engine revision's
`lookup_single_number` does return a typed error dictionary, but the
orchestrator cited by the claim does not.) -/
theorem c7_invalid_input_returns_none (raw cc now : String)
    (attempts : List (Option HttpResponse))
    (h : (validate_phone_number raw).1 = false) :
    search_number raw cc attempts now = none := by
  unfold search_number
  unfold validate_phone_number at h
  rcases hv : validateChars raw.data with ⟨b, c⟩
  rw [hv] at h
  cases b
  · rfl
  · simp at h

/-- C7 witness: the amended theorem applied to the invalid input `"++"`
(cleans to two characters, rejected as too short). -/
theorem c7_witness : search_number "++" "BD" [] "ts" = none :=
  c7_invalid_input_returns_none "++" "BD" "ts" [] (by decide)

/-! ### Batch driver: `XloockupEngine.lookup_single_number` and
`XloockupEngine.bulk_lookup` (`xloockup.py` lines 80-174).
`lookup_single_number` validates, then builds the deterministic mock
response of `_generate_mock_response`; on validation failure it returns
the error dictionary `{"error": message, "success": False}`. -/

/-- The prefix table of `_generate_mock_response`
(`{'880': Bangladesh/BD, '91': India/IN, '1': United States/US}`). -/
def mockTable (s : String) : Option (String × String) :=
  if s = "880" then some ("Bangladesh", "BD")
  else if s = "91" then some ("India", "IN")
  else if s = "1" then some ("United States", "US")
  else none

/-- `country_codes.get(phone[:3]) or country_codes.get(phone[:1]) or
{'Unknown', 'XX'}`. -/
def mockCountryInfo (phone : String) : String × String :=
  match mockTable (String.mk (phone.data.take 3)) with
  | some ci => ci
  | none =>
    match mockTable (String.mk (phone.data.take 1)) with
    | some ci => ci
    | none => ("Unknown", "XX")

/-- The mock `data` payload of `_generate_mock_response`. -/
structure MockData where
  phoneNumber : String
  name : String
  carrier : String
  country : String
  countryCode : String
  spamScore : Int
  spamType : String
  imageUrl : Option String
  internetAddresses : List JSON
  addresses : List JSON
  confidence : Int
  lookupSource : String
  timestamp : String

def generateMock (phone now : String) : MockData :=
  { phoneNumber := phone,
    name := "Demo User " ++ String.mk (phone.data.drop (phone.data.length - 4)),
    carrier := "Demo Carrier",
    country := (mockCountryInfo phone).1,
    countryCode := (mockCountryInfo phone).2,
    spamScore := 25,
    spamType := "None",
    imageUrl := none,
    internetAddresses := [],
    addresses := [],
    confidence := 85,
    lookupSource := "Xloockup Demo",
    timestamp := now }

/-- One entry of a bulk result: the `{"error": …, "success": False}`
dictionary or the `{"success": True, "data": …}` mock payload. -/
inductive LookupOutcome where
  | failure (error : String) : LookupOutcome
  | success (data : MockData) : LookupOutcome

/-- `XloockupEngine.lookup_single_number` (`now` stands for the
wall-clock timestamp read during the call). -/
def lookup_single_number (raw cc now : String) : LookupOutcome :=
  match engineValidateChars raw.data cc with
  | (false, _, msg) => .failure msg
  | (true, cleaned, _) => .success (generateMock (String.mk cleaned) now)

/-- `r.get('success')` truthiness on an outcome dictionary. -/
def outcomeSuccess : LookupOutcome → Bool
  | .failure _ => false
  | .success _ => true

/-- The summary dictionary returned by `bulk_lookup`. -/
structure BatchResult where
  success : Bool
  total_processed : Nat
  successful_lookups : Nat
  failed_lookups : Nat
  results : List LookupOutcome

/-- The `for` loop of `bulk_lookup`: one `lookup_single_number` call per
input, results appended in input order. -/
def bulkResults (cc now : String) : List String → List LookupOutcome
  | [] => []
  | n :: rest => lookup_single_number n cc now :: bulkResults cc now rest

/-- `XloockupEngine.bulk_lookup` (lines 145-174). -/
def bulk_lookup (numbers : List String) (cc now : String) : BatchResult :=
  { success := true,
    total_processed := numbers.length,
    successful_lookups :=
      ((bulkResults cc now numbers).filter (fun r => outcomeSuccess r)).length,
    failed_lookups :=
      ((bulkResults cc now numbers).filter (fun r => !(outcomeSuccess r))).length,
    results := bulkResults cc now numbers }

lemma bulkResults_map (cc now : String) (ns : List String) :
    bulkResults cc now ns = ns.map (fun n => lookup_single_number n cc now) := by
  induction ns with
  | nil => rfl
  | cons a t ih => simp [bulkResults, ih]

lemma length_filter_partition {α : Type} (p : α → Bool) (l : List α) :
    (l.filter p).length + (l.filter (fun a => !(p a))).length = l.length := by
  induction l with
  | nil => rfl
  | cons a t ih =>
    cases hpa : p a
    · simp [List.filter_cons, hpa]
      omega
    · simp [List.filter_cons, hpa]
      omega

/-! ### Claim theorem C8 (batch semantics) -/

/-- C8: `bulk_lookup` maps every input — duplicates included — to exactly
one outcome, in input order (the result list is the elementwise image of
the input list, so a failing entry never affects later entries), and the
reported success/failure counts partition the inputs:
`successful_lookups + failed_lookups = N = total_processed`. -/
theorem c8_bulk_lookup_counts (numbers : List String) (cc now : String) :
    (bulk_lookup numbers cc now).results =
      numbers.map (fun n => lookup_single_number n cc now) ∧
    (bulk_lookup numbers cc now).results.length = numbers.length ∧
    (bulk_lookup numbers cc now).successful_lookups +
      (bulk_lookup numbers cc now).failed_lookups = numbers.length ∧
    (bulk_lookup numbers cc now).total_processed = numbers.length := by
  refine ⟨bulkResults_map cc now numbers, ?_, ?_, rfl⟩
  · show (bulkResults cc now numbers).length = numbers.length
    rw [bulkResults_map]
    exact List.length_map numbers _
  · show ((bulkResults cc now numbers).filter _).length +
      ((bulkResults cc now numbers).filter _).length = numbers.length
    rw [length_filter_partition]
    rw [bulkResults_map]
    exact List.length_map numbers _

/-! ### Display banding (C9)

`utils.display_result` lines 154-177 and
`XloockupInterface.display_number_info` lines 274-283. -/

/-- Spam banding of `utils.display_result`: the status string chosen for
a given `spamScore`. -/
def spamStatusLabel (s : Int) : String :=
  if s > 70 then "HIGH SPAM" else if s > 40 then "MEDIUM SPAM" else "CLEAN"

/-- Confidence banding of `utils.display_result`: the `COLORS` key
chosen for a given `score` (`success` = high, `warning` = medium,
`error` = low). -/
def scoreColorKey (s : Int) : String :=
  if s > 80 then "success" else if s > 60 then "warning" else "error"

/-- Spam banding of `XloockupInterface.display_number_info`
(`GREEN` = clean, `YELLOW` = medium, `RED` = high). -/
def engineSpamColor (s : Int) : String :=
  if s < 30 then "GREEN" else if s < 70 then "YELLOW" else "RED"

/-- Confidence banding of `XloockupInterface.display_number_info`
(`RED` = low, `YELLOW` = medium, `GREEN` = high). -/
def engineConfColor (c : Int) : String :=
  if c < 50 then "RED" else if c < 80 then "YELLOW" else "GREEN"

/-- C9 counterexample: `display_number_info` does not use the documented
thresholds.  Spam 70 is shown red (high) though the claim puts 70 in the
medium band; spam 40 is yellow (medium) though the claim says clean;
confidence 60 is yellow (medium) though the claim says low; confidence
80 is green (high) though the claim says medium. -/
theorem c9_counterexample :
    engineSpamColor 70 = "RED" ∧ engineSpamColor 40 = "YELLOW" ∧
    engineConfColor 60 = "YELLOW" ∧ engineConfColor 80 = "GREEN" := by
  refine ⟨by decide, by decide, by decide, by decide⟩

/-- C9 (amended): `utils.display_result` uses exactly the documented
thresholds (spam `> 70` high, `41–70` medium, `≤ 40` clean; confidence
`> 80` high, `61–80` medium, `≤ 60` low), while
`XloockupInterface.display_number_info` uses different cutoffs
(spam `< 30` clean, `30–69` medium, `≥ 70` high; confidence `< 50` low,
`50–79` medium, `≥ 80` high). -/
theorem c9_banding_thresholds (s : Int) :
    (spamStatusLabel s = "HIGH SPAM" ↔ 70 < s) ∧
    (spamStatusLabel s = "MEDIUM SPAM" ↔ 40 < s ∧ s ≤ 70) ∧
    (spamStatusLabel s = "CLEAN" ↔ s ≤ 40) ∧
    (scoreColorKey s = "success" ↔ 80 < s) ∧
    (scoreColorKey s = "warning" ↔ 60 < s ∧ s ≤ 80) ∧
    (scoreColorKey s = "error" ↔ s ≤ 60) ∧
    (engineSpamColor s = "GREEN" ↔ s < 30) ∧
    (engineSpamColor s = "YELLOW" ↔ 30 ≤ s ∧ s < 70) ∧
    (engineSpamColor s = "RED" ↔ 70 ≤ s) ∧
    (engineConfColor s = "RED" ↔ s < 50) ∧
    (engineConfColor s = "YELLOW" ↔ 50 ≤ s ∧ s < 80) ∧
    (engineConfColor s = "GREEN" ↔ 80 ≤ s) := by
  unfold spamStatusLabel scoreColorKey engineSpamColor engineConfColor
  split_ifs <;> simp_all <;> omega
